import Mathlib

/-!
Verification of the ux-agent backend against its design specification.

The Python sources are shallowly embedded as Lean definitions:

* `src/ollama_llm_backend.py` — fallback classifier
  (`get_smart_fallback_response`), conversation store
  (`get_or_create_conversation`, `add_message_to_history`), prompt builder
  (`build_context_prompt`), chat endpoint (`chat_with_ux_agent`) and the
  chat-history endpoints.
* `src/app/services/ux_knowledge.py` — `UXKnowledgeService.search_knowledge`.
* `src/app/services/ux_agent_service.py` — `UXAgentService.process_request`.
* `src/app/api/routes/payment.py` — `create_payment_intent`, `stripe_webhook`.

Python strings are embedded as Lean `String`; dictionaries keyed by strings
or integers are embedded as association lists in insertion order, matching
the guaranteed insertion-order iteration of Python dicts.  External effects
(the Ollama HTTP call, the OpenAI agents runner, the Stripe API) are
abstracted as explicit outcome parameters; external timestamps are passed in
as data.  The long static prose constants (canned responses and persona
prompts) are abbreviated to a verbatim distinctive opening fragment of the
original text, since none of the control flow inspects their bodies; each
such constant is marked in its doc comment.
-/

namespace UXAgentSpec

/-! ### Character-list string primitives

Python string operators used by the sources: `in` (substring test),
`str.count` (non-overlapping occurrence count), `str.lower`, `str.title`.
They are modelled on the underlying character lists.
-/

/-- Does the needle (first argument) occur at the head of the haystack
(second argument)?  Building block for the Python `in` operator. -/
def charsStarts : List Char → List Char → Bool
  | [], _ => true
  | _ :: _, [] => false
  | a :: as, b :: bs => a == b && charsStarts as bs

/-- Does the needle occur anywhere in the haystack?  Mirrors the Python
`needle in haystack` substring test (an empty needle always matches). -/
def charsContains (need : List Char) : List Char → Bool
  | [] => need.isEmpty
  | c :: cs => charsStarts need (c :: cs) || charsContains need cs

/-- Python `needle in haystack` on `String`. -/
def strContains (hay need : String) : Bool :=
  charsContains need.data hay.data

/-- Scanning pass for the occurrence count: walk the haystack left to
right; the counter records how many positions of a just-matched occurrence
remain to be skipped, so matches never overlap. -/
def countOccsGo (need : List Char) : List Char → Nat → Nat
  | [], _ => 0
  | _ :: cs, Nat.succ k => countOccsGo need cs k
  | c :: cs, 0 =>
    if charsStarts need (c :: cs) then 1 + countOccsGo need cs (need.length - 1)
    else countOccsGo need cs 0

/-- Number of non-overlapping occurrences of the needle, scanning left to
right; mirrors Python `str.count` (which reports `len + 1` for an empty
needle). -/
def countOccs (need hay : List Char) : Nat :=
  if need.isEmpty then hay.length + 1 else countOccsGo need hay 0

/-- Python `hay.count(need)` on `String`. -/
def strCount (hay need : String) : Nat :=
  countOccs need.data hay.data

/-- Python `str.lower` (characterwise; the sources only lower-case ASCII
text). -/
def strLower (s : String) : String :=
  ⟨s.data.map Char.toLower⟩

/-- Helper for `pyTitle`: the Boolean records whether the previous character
was alphabetic. -/
def titleChars : Bool → List Char → List Char
  | _, [] => []
  | prevAlpha, c :: cs =>
    (if c.isAlpha && !prevAlpha then c.toUpper else c.toLower) ::
      titleChars c.isAlpha cs

/-- Python `str.title`: upper-cases a letter that follows a non-letter,
lower-cases the rest.  Used on the stored message roles, turning `user` into
`User` and `assistant` into `Assistant`. -/
def pyTitle (s : String) : String :=
  ⟨titleChars false s.data⟩

/-! ### Fallback classifier (`get_smart_fallback_response`)

From `src/ollama_llm_backend.py`.  The seven keyword category lists and
their order are copied verbatim from the if/elif chain.  Each static
multi-paragraph response is abbreviated to its verbatim opening header; the
classifier never inspects the response bodies.
-/

/-- Job-story category response, abbreviated to its verbatim opening
header. -/
def jobStoryResponse : String := "**Job Story Writing Guide**"

/-- Strategy-alignment category response, abbreviated to its verbatim
opening header. -/
def strategyAlignResponse : String := "**UX Strategy Alignment Framework**"

/-- Usability-testing category response, abbreviated to its verbatim opening
header. -/
def usabilityTestingResponse : String := "**Comprehensive Usability Testing Framework**"

/-- User-flow category response, abbreviated to its verbatim opening
header. -/
def userFlowResponse : String := "**User Flow Mapping Guide**"

/-- Analytics category response, abbreviated to its verbatim opening
header. -/
def analyticsResponse : String := "**Product Analytics Framework**"

/-- Workflow category response, abbreviated to its verbatim opening
header. -/
def workflowCategoryResponse : String := "**Comprehensive UX Workflow Framework**"

/-- Research category response, abbreviated to its verbatim opening
header. -/
def researchResponse : String := "**User Research Methods for B2B Contexts**"

/-- Per-agent default canned response, `MOCK_RESPONSES[workflow]`,
abbreviated to a verbatim distinctive header inside it. -/
def mockWorkflowResponse : String := "**Comprehensive UX Workflow Framework:**"

/-- Per-agent default canned response, `MOCK_RESPONSES[thinking]`,
abbreviated to a verbatim distinctive header inside it. -/
def mockThinkingResponse : String := "**Advanced UX Strategy Framework:**"

/-- Per-agent default canned response, `MOCK_RESPONSES[writing]`,
abbreviated to a verbatim distinctive header inside it. -/
def mockWritingResponse : String := "**Comprehensive Usability Testing Framework:**"

/-- Per-agent default canned response, `MOCK_RESPONSES[triage]`,
abbreviated to a verbatim distinctive header inside it. -/
def mockTriageResponse : String := "**Comprehensive UX Knowledge Base:**"

/-- The `MOCK_RESPONSES` dictionary, in source order. -/
def MOCK_RESPONSES : List (String × String) :=
  [("workflow", mockWorkflowResponse),
   ("thinking", mockThinkingResponse),
   ("writing", mockWritingResponse),
   ("triage", mockTriageResponse)]

/-- Python `MOCK_RESPONSES.get(agent_type, MOCK_RESPONSES[triage])`. -/
def mockResponseFor (agentType : String) : String :=
  (MOCK_RESPONSES.lookup agentType).getD mockTriageResponse

/-- Keyword list of the job-story branch, verbatim from the source. -/
def jobStoryKeywords : List String := ["job story", "user story", "story writing"]

/-- Keyword list of the strategy-alignment branch, verbatim from the
source. -/
def strategyKeywords : List String := ["align", "strategy", "business goals", "roadmap"]

/-- Keyword list of the usability-testing branch, verbatim from the
source. -/
def usabilityKeywords : List String := ["usability test", "user test", "testing", "test plan"]

/-- Keyword list of the user-flow branch, verbatim from the source. -/
def userFlowKeywords : List String := ["user flow", "flow", "user journey", "journey map"]

/-- Keyword list of the analytics branch, verbatim from the source. -/
def analyticsKeywords : List String := ["analytics", "metrics", "data", "measurement"]

/-- Keyword list of the workflow branch, verbatim from the source. -/
def workflowKeywords : List String := ["workflow", "process", "methodology", "framework"]

/-- Keyword list of the research branch, verbatim from the source. -/
def researchKeywords : List String := ["user research", "research methods", "b2b research"]

/-- Python `any(keyword in message_lower for keyword in kws)`. -/
def hasAnyKeyword (messageLower : String) (kws : List String) : Bool :=
  kws.any fun k => strContains messageLower k

/-- `get_smart_fallback_response(message, agent_type)` from
`src/ollama_llm_backend.py`: lower-cases the message, walks the if/elif
chain of keyword categories in source order, and otherwise falls back to the
per-agent default. -/
def get_smart_fallback_response (message agentType : String) : String :=
  let ml := strLower message
  if hasAnyKeyword ml jobStoryKeywords then jobStoryResponse
  else if hasAnyKeyword ml strategyKeywords then strategyAlignResponse
  else if hasAnyKeyword ml usabilityKeywords then usabilityTestingResponse
  else if hasAnyKeyword ml userFlowKeywords then userFlowResponse
  else if hasAnyKeyword ml analyticsKeywords then analyticsResponse
  else if hasAnyKeyword ml workflowKeywords then workflowCategoryResponse
  else if hasAnyKeyword ml researchKeywords then researchResponse
  else mockResponseFor agentType

/-- The ordered category table asserted by the spec for the fallback
classifier: keyword set paired with its static response, in the listed
order. -/
def fallbackCategories : List (List String × String) :=
  [(jobStoryKeywords, jobStoryResponse),
   (strategyKeywords, strategyAlignResponse),
   (usabilityKeywords, usabilityTestingResponse),
   (userFlowKeywords, userFlowResponse),
   (analyticsKeywords, analyticsResponse),
   (workflowKeywords, workflowCategoryResponse),
   (researchKeywords, researchResponse)]

/-- First-match walk over an ordered category table; together with
`specFirstMatchResponse` this is the spec-side reading of the classifier
contract (first category whose keyword set matches wins). -/
def firstMatchWalk (ml agentType : String) : List (List String × String) → String
  | [] => mockResponseFor agentType
  | (kws, resp) :: rest =>
    if hasAnyKeyword ml kws then resp else firstMatchWalk ml agentType rest

/-- Spec-side formulation of the fallback classifier: test the lower-cased
message against the ordered category list and return the first matching
response, defaulting to the per-agent canned response. -/
def specFirstMatchResponse (message agentType : String) : String :=
  firstMatchWalk (strLower message) agentType fallbackCategories

/-- C1: the fallback classifier tests the lower-cased message against its
keyword categories in the fixed listed order and returns the static
response of the first matching category (first-match-wins, equal to the
ordered-walk specification); in particular a message containing both
"job story" and "usability test" always gets the job-story response and
never the usability-testing one. -/
theorem fallback_first_match_wins :
    (∀ message agentType,
      get_smart_fallback_response message agentType =
        specFirstMatchResponse message agentType) ∧
    (∀ message agentType,
      strContains (strLower message) "job story" = true →
      strContains (strLower message) "usability test" = true →
      get_smart_fallback_response message agentType = jobStoryResponse ∧
        get_smart_fallback_response message agentType ≠ usabilityTestingResponse) := by
  constructor
  · intro message agentType
    rfl
  · intro message agentType hjob _husab
    have hmatch : hasAnyKeyword (strLower message) jobStoryKeywords = true := by
      simp [hasAnyKeyword, jobStoryKeywords]
      exact Or.inl hjob
    constructor
    · simp [get_smart_fallback_response, hmatch]
    · simp [get_smart_fallback_response, hmatch]
      decide

/-- Witness for C1 at a concrete message containing both "job story" and
"usability test". -/
theorem fallback_first_match_wins_witness :
    get_smart_fallback_response "Draft a job story before the usability test" "writing" =
      jobStoryResponse :=
  (fallback_first_match_wins.2 "Draft a job story before the usability test" "writing"
    (by decide) (by decide)).1

/-! ### Agent registry (`AGENT_CONFIGS`) and `UXAgentService.process_request`

`AGENT_CONFIGS` is from `src/ollama_llm_backend.py`; `process_request` is
from `src/app/services/ux_agent_service.py`, whose agent dictionary holds
exactly the keys workflow, thinking, writing, triage.
-/

/-- One entry of `AGENT_CONFIGS`: display name and persona system prompt. -/
structure AgentConfig where
  name : String
  system_prompt : String
deriving DecidableEq

/-- Workflow agent configuration; the persona prompt is abbreviated to its
verbatim opening line. -/
def workflowConfig : AgentConfig :=
  { name := "UX Workflow Specialist",
    system_prompt := "You are a UX Workflow Specialist with deep expertise in:" }

/-- Thinking agent configuration; the persona prompt is abbreviated to its
verbatim opening line. -/
def thinkingConfig : AgentConfig :=
  { name := "UX Strategic Thinker",
    system_prompt := "You are a UX Strategic Thinker with expertise in:" }

/-- Writing agent configuration; the persona prompt is abbreviated to its
verbatim opening line. -/
def writingConfig : AgentConfig :=
  { name := "UX Writing Expert",
    system_prompt := "**CRITICAL JOB STORY INSTRUCTIONS:**" }

/-- Triage agent configuration; the persona prompt is abbreviated to its
verbatim opening sentence. -/
def triageConfig : AgentConfig :=
  { name := "UX Request Triage",
    system_prompt := "You are a UX Request Triage agent that provides direct, helpful answers to UX questions." }

/-- The `AGENT_CONFIGS` dictionary, in source order. -/
def AGENT_CONFIGS : List (String × AgentConfig) :=
  [("workflow", workflowConfig),
   ("thinking", thinkingConfig),
   ("writing", writingConfig),
   ("triage", triageConfig)]

/-- Python `AGENT_CONFIGS.get(agent_type, AGENT_CONFIGS[triage])`, the
persona resolution used by `build_context_prompt`. -/
def agentConfigFor (agentType : String) : AgentConfig :=
  (AGENT_CONFIGS.lookup agentType).getD triageConfig

/-- Keys of the `self.agents` dictionary built by
`UXAgentService._initialize_agents`. -/
def knownAgentTypes : List String := ["workflow", "thinking", "writing", "triage"]

/-- Outcome of the external `Runner.run` call inside `process_request`:
either a final output text or a raised exception message. -/
inductive RunnerOutcome where
  | ok (finalOutput : String)
  | exn (message : String)
deriving DecidableEq

/-- The dictionary returned by `process_request` (success and failure
shapes share these fields; absent keys are `none`).  The knowledge-source
list of the success shape is abstracted away since it depends only on the
knowledge base, not on the agent identifier. -/
structure ProcessResult where
  success : Bool
  response : Option String
  error : Option String
  agent_used : String
deriving DecidableEq

/-- `UXAgentService.process_request(user_input, agent_type)`: raises
`ValueError` for an agent type outside `self.agents`; the surrounding
`except` clause converts any exception into a failure dictionary.  The
knowledge-context lookup and enhanced-input construction only shape the
text sent to the runner and are folded into the abstract runner outcome. -/
def process_request (_userInput agentType : String) (runner : RunnerOutcome) :
    ProcessResult :=
  if knownAgentTypes.contains agentType then
    match runner with
    | .ok out =>
      { success := true, response := some out, error := none, agent_used := agentType }
    | .exn e =>
      { success := false, response := none, error := some e, agent_used := agentType }
  else
    { success := false, response := none,
      error := some ("Unknown agent type: " ++ agentType), agent_used := agentType }

/-- C4 counterexample: for the unknown agent identifier `marketing`,
`UXAgentService.process_request` returns a failure result
(`success = False`) even when the runner would succeed, contradicting the
claim that unknown identifiers never produce a failure result. -/
theorem unknown_agent_process_request_fails :
    "marketing" ∉ knownAgentTypes ∧
    (process_request "hello" "marketing" (RunnerOutcome.ok "text")).success = false := by
  constructor
  · decide
  · rfl

/-- C4 (amended): for every agent identifier outside
{workflow, thinking, writing, triage}, the Ollama backend resolves the
persona to the triage configuration and the fallback classifier default to
the triage canned response, without error; `UXAgentService.process_request`,
however, never resolves to triage: it returns a caught-failure dictionary
with `success = False` and an explanatory error message. -/
theorem unknown_agent_resolution (a : String) (h : a ∉ knownAgentTypes) :
    agentConfigFor a = triageConfig ∧
    mockResponseFor a = mockTriageResponse ∧
    ∀ inp r, (process_request inp a r).success = false ∧
      (process_request inp a r).error = some ("Unknown agent type: " ++ a) := by
  have hmem := h
  simp only [knownAgentTypes, List.mem_cons, List.not_mem_nil, or_false, not_or] at h
  obtain ⟨h1, h2, h3, h4⟩ := h
  have hb1 : (a == "workflow") = false := by simp [h1]
  have hb2 : (a == "thinking") = false := by simp [h2]
  have hb3 : (a == "writing") = false := by simp [h3]
  have hb4 : (a == "triage") = false := by simp [h4]
  refine ⟨?_, ?_, ?_⟩
  · simp [agentConfigFor, AGENT_CONFIGS, List.lookup, hb1, hb2, hb3, hb4]
  · simp [mockResponseFor, MOCK_RESPONSES, List.lookup, hb1, hb2, hb3, hb4]
  · intro inp r
    simp [process_request, hmem]

/-- Witness for C4 at the concrete unknown identifier `marketing`. -/
theorem unknown_agent_resolution_witness :
    agentConfigFor "marketing" = triageConfig ∧
    mockResponseFor "marketing" = mockTriageResponse :=
  ⟨(unknown_agent_resolution "marketing" (by decide)).1,
   (unknown_agent_resolution "marketing" (by decide)).2.1⟩

/-! ### Chat turn and upstream-failure fallback

`get_ollama_response_sync` and the `chat_with_ux_agent` response selection
from `src/ollama_llm_backend.py`.  The HTTP call is abstracted as an
explicit outcome.
-/

/-- Outcome of the `requests.post` call inside `get_ollama_response_sync`:
a 200 response carrying the optional JSON `response` field, a non-200
status, or a raised transport exception. -/
inductive OllamaOutcome where
  | ok (responseField : Option String)
  | httpError (status : Nat) (text : String)
  | exn (message : String)
deriving DecidableEq

/-- `get_ollama_response_sync` result text: on 200 the JSON `response`
field (defaulting to `No response generated`), on a non-200 status the
`Ollama API error` string, on an exception the `Ollama service error`
string. -/
def get_ollama_response_sync (outcome : OllamaOutcome) : String :=
  match outcome with
  | .ok r => r.getD "No response generated"
  | .httpError code _ => "Ollama API error: " ++ toString code
  | .exn e => "Ollama service error: " ++ e

/-- The upstream-failure text pattern checked by `chat_with_ux_agent`:
the lower-cased completion text contains `error` together with `ollama`
or `api`. -/
def isUpstreamFailureText (r : String) : Bool :=
  strContains (strLower r) "error" &&
    (strContains (strLower r) "ollama" || strContains (strLower r) "api")

/-- Response-text selection of the `chat_with_ux_agent` endpoint: when
Ollama is available, use the completion text unless it matches the
upstream-failure pattern, in which case (or when Ollama is unavailable)
use the fallback classifier. -/
def chat_turn_response (message agentType : String) (ollamaAvailable : Bool)
    (outcome : OllamaOutcome) : String :=
  if ollamaAvailable then
    let r := get_ollama_response_sync outcome
    if isUpstreamFailureText r then get_smart_fallback_response message agentType
    else r
  else get_smart_fallback_response message agentType

theorem charsStarts_append (need l l2 : List Char)
    (h : charsStarts need l = true) : charsStarts need (l ++ l2) = true := by
  induction need generalizing l with
  | nil => simp [charsStarts]
  | cons a as ih =>
    cases l with
    | nil => simp [charsStarts] at h
    | cons b bs =>
      simp only [charsStarts, Bool.and_eq_true, beq_iff_eq] at h
      simp only [List.cons_append, charsStarts, Bool.and_eq_true, beq_iff_eq]
      exact ⟨h.1, ih bs h.2⟩

theorem charsContains_append_left (need l l2 : List Char)
    (h : charsContains need l = true) : charsContains need (l ++ l2) = true := by
  induction l with
  | nil =>
    simp only [charsContains] at h
    simp only [List.nil_append]
    cases l2 with
    | nil => simpa [charsContains] using h
    | cons c cs =>
      simp only [List.isEmpty_iff] at h
      subst h
      simp [charsContains, charsStarts]
  | cons c cs ih =>
    simp only [charsContains, Bool.or_eq_true] at h
    rcases h with h | h
    · simp only [List.cons_append, charsContains, Bool.or_eq_true]
      exact Or.inl (charsStarts_append _ _ _ h)
    · simp only [List.cons_append, charsContains, Bool.or_eq_true]
      exact Or.inr (ih h)

theorem string_data_append (s t : String) : (s ++ t).data = s.data ++ t.data := by
  cases s; cases t; rfl

theorem strContains_append_left (s t u : String)
    (h : strContains s u = true) : strContains (s ++ t) u = true := by
  simp only [strContains, string_data_append]
  exact charsContains_append_left _ _ _ h

theorem strLower_append (s t : String) :
    strLower (s ++ t) = strLower s ++ strLower t := by
  simp only [strLower, string_data_append, List.map_append]
  cases s; cases t; rfl

theorem upstream_failure_api_error (t : String) :
    isUpstreamFailureText ("Ollama API error: " ++ t) = true := by
  simp only [isUpstreamFailureText, strLower_append, Bool.and_eq_true, Bool.or_eq_true]
  refine ⟨strContains_append_left _ _ _ (by decide),
    Or.inl (strContains_append_left _ _ _ (by decide))⟩

theorem upstream_failure_service_error (t : String) :
    isUpstreamFailureText ("Ollama service error: " ++ t) = true := by
  simp only [isUpstreamFailureText, strLower_append, Bool.and_eq_true, Bool.or_eq_true]
  refine ⟨strContains_append_left _ _ _ (by decide),
    Or.inl (strContains_append_left _ _ _ (by decide))⟩

/-- C5: whenever the completion call raises a transport error, returns a
non-2xx status, or yields text matching the upstream-failure pattern, the
chat turn answers with the fallback classifier response; and in every case
the turn produces a response (either the fallback text or the successful
completion text) — there is no error outcome. -/
theorem chat_turn_always_responds (message agentType : String) (avail : Bool)
    (outcome : OllamaOutcome) :
    (∀ c t, outcome = OllamaOutcome.httpError c t →
      chat_turn_response message agentType avail outcome =
        get_smart_fallback_response message agentType) ∧
    (∀ e, outcome = OllamaOutcome.exn e →
      chat_turn_response message agentType avail outcome =
        get_smart_fallback_response message agentType) ∧
    (isUpstreamFailureText (get_ollama_response_sync outcome) = true →
      chat_turn_response message agentType avail outcome =
        get_smart_fallback_response message agentType) ∧
    (chat_turn_response message agentType avail outcome =
        get_smart_fallback_response message agentType ∨
      ∃ r, outcome = OllamaOutcome.ok r ∧
        chat_turn_response message agentType avail outcome =
          r.getD "No response generated") := by
  have hpat : ∀ hp : isUpstreamFailureText (get_ollama_response_sync outcome) = true,
      chat_turn_response message agentType avail outcome =
        get_smart_fallback_response message agentType := by
    intro hp
    cases avail with
    | false => rfl
    | true => simp [chat_turn_response, hp]
  refine ⟨?_, ?_, hpat, ?_⟩
  · intro c t ho
    exact hpat (by rw [ho]; exact upstream_failure_api_error _)
  · intro e ho
    exact hpat (by rw [ho]; exact upstream_failure_service_error _)
  · cases avail with
    | false => exact Or.inl rfl
    | true =>
      cases outcome with
      | ok r =>
        by_cases hp : isUpstreamFailureText (get_ollama_response_sync (.ok r)) = true
        · exact Or.inl (hpat hp)
        · refine Or.inr ⟨r, rfl, ?_⟩
          simp only [Bool.not_eq_true, get_ollama_response_sync] at hp
          simp [chat_turn_response, get_ollama_response_sync, hp]
      | httpError c t => exact Or.inl (hpat (upstream_failure_api_error _))
      | exn e => exact Or.inl (hpat (upstream_failure_service_error _))

/-- Witness for C5 at a concrete non-2xx completion outcome. -/
theorem chat_turn_always_responds_witness :
    chat_turn_response "hi" "triage" true (OllamaOutcome.httpError 500 "boom") =
      get_smart_fallback_response "hi" "triage" :=
  (chat_turn_always_responds "hi" "triage" true
    (OllamaOutcome.httpError 500 "boom")).1 500 "boom" rfl

/-! ### Conversation store

`chat_sessions` / `next_conversation_id` globals and the functions
`get_or_create_conversation`, `add_message_to_history`,
`get_chat_history`, `clear_chat_history` from `src/ollama_llm_backend.py`.
The `chat_sessions` dict is an association list in insertion order; the
timestamp produced by `datetime.now().isoformat()` is passed in as data.
-/

/-- One stored chat message: role, content and the iso-format timestamp
recorded at append time. -/
structure ChatMessage where
  role : String
  content : String
  timestamp : String
deriving DecidableEq

/-- The process-wide conversation state: the `chat_sessions` dict and the
`next_conversation_id` counter. -/
structure ConvStore where
  chat_sessions : List (Nat × List ChatMessage)
  next_conversation_id : Nat
deriving DecidableEq

/-- The conversation identifiers currently present in `chat_sessions`. -/
def sessionIds (st : ConvStore) : List Nat :=
  st.chat_sessions.map Prod.fst

/-- Message list stored under a conversation identifier, when present. -/
def sessionHistory (st : ConvStore) (cid : Nat) : Option (List ChatMessage) :=
  st.chat_sessions.lookup cid

/-- Allocation arm of `get_or_create_conversation`: take the counter value
as the new identifier, bump the counter, store an empty list. -/
def allocNewConversation (st : ConvStore) : Nat × ConvStore :=
  (st.next_conversation_id,
   { chat_sessions := st.chat_sessions ++ [(st.next_conversation_id, [])],
     next_conversation_id := st.next_conversation_id + 1 })

/-- `get_or_create_conversation(conversation_id)`: reuse the identifier if
it is given and present, otherwise allocate a fresh conversation. -/
def get_or_create_conversation (st : ConvStore) (cid : Option Nat) :
    Nat × ConvStore :=
  match cid with
  | some c => if (sessionIds st).contains c then (c, st) else allocNewConversation st
  | none => allocNewConversation st

/-- `add_message_to_history` acting on one conversation message list:
append the timestamped message, then keep only the last 20 entries. -/
def add_message_to_history (history : List ChatMessage) (m : ChatMessage) :
    List ChatMessage :=
  let h := history ++ [m]
  if h.length > 20 then h.drop (h.length - 20) else h

theorem add_message_to_history_eq (l : List ChatMessage) (m : ChatMessage) :
    add_message_to_history l m =
      (l ++ [m]).drop ((l ++ [m]).length - 20) := by
  by_cases hgt : (l ++ [m]).length > 20
  · simp only [add_message_to_history, if_pos hgt]
  · simp only [add_message_to_history, if_neg hgt]
    have h0 : (l ++ [m]).length - 20 = 0 := by omega
    rw [h0, List.drop_zero]

theorem foldl_add_message_general (ms : List ChatMessage) :
    ∀ l : List ChatMessage, l.length ≤ 20 →
      List.foldl add_message_to_history l ms =
        (l ++ ms).drop ((l ++ ms).length - 20) := by
  induction ms with
  | nil =>
    intro l hl
    have h0 : l.length - 20 = 0 := by omega
    simp [h0]
  | cons m rest ih =>
    intro l hl
    have hstep := add_message_to_history_eq l m
    have hlen : (add_message_to_history l m).length ≤ 20 := by
      rw [hstep]
      simp [List.length_drop]
      omega
    calc List.foldl add_message_to_history l (m :: rest)
        = List.foldl add_message_to_history (add_message_to_history l m) rest := rfl
      _ = ((add_message_to_history l m) ++ rest).drop
            (((add_message_to_history l m) ++ rest).length - 20) := ih _ hlen
      _ = (l ++ m :: rest).drop ((l ++ m :: rest).length - 20) := by
          rw [hstep]
          have hd : (l ++ [m]).length - 20 ≤ (l ++ [m]).length := by omega
          rw [← List.drop_append_of_le_length hd]
          rw [List.drop_drop]
          have harr : l ++ [m] ++ rest = l ++ m :: rest := by simp
          rw [harr]
          congr 1
          simp [List.length_drop, List.length_append]
          omega

/-- C2: starting from an empty conversation, after any sequence of appends
the stored list is exactly the most recent 20 appended messages in append
order — in particular it never exceeds 20 entries, equals the full sequence
while at most 20 messages have been appended, and has exactly 20 entries
once more than 20 have been appended. -/
theorem conversation_retention (ms : List ChatMessage) :
    List.foldl add_message_to_history [] ms = ms.drop (ms.length - 20) ∧
    (List.foldl add_message_to_history [] ms).length ≤ 20 ∧
    (ms.length ≤ 20 → List.foldl add_message_to_history [] ms = ms) ∧
    (20 < ms.length → (List.foldl add_message_to_history [] ms).length = 20) := by
  have h := foldl_add_message_general ms [] (by simp)
  simp only [List.nil_append] at h
  refine ⟨h, ?_, ?_, ?_⟩
  · rw [h]; simp [List.length_drop]; omega
  · intro hle
    rw [h]
    have : ms.length - 20 = 0 := by omega
    simp [this]
  · intro hgt
    rw [h]
    simp [List.length_drop]
    omega

/-- Counter invariant of the conversation store: every identifier present
in `chat_sessions` is strictly below the allocation counter.  It holds for
the initial state (empty dict, counter 1) and is preserved by every
operation that touches the store. -/
def ConvStoreInv (st : ConvStore) : Prop :=
  ∀ k ∈ sessionIds st, k < st.next_conversation_id

instance (st : ConvStore) : Decidable (ConvStoreInv st) := by
  unfold ConvStoreInv
  infer_instance

theorem lookup_append_fresh {β : Type} (l : List (Nat × β)) (i : Nat) (v : β)
    (h : i ∉ l.map Prod.fst) : (l ++ [(i, v)]).lookup i = some v := by
  induction l with
  | nil => simp [List.lookup]
  | cons p rest ih =>
    simp only [List.map_cons, List.mem_cons, not_or] at h
    have : (i == p.1) = false := by simp [h.1]
    simpa [List.lookup, this] using ih h.2

theorem lookup_append_other {β : Type} (l : List (Nat × β)) (i k : Nat) (v : β)
    (h : k ≠ i) : (l ++ [(i, v)]).lookup k = l.lookup k := by
  induction l with
  | nil =>
    have hb : (k == i) = false := by simp [h]
    simp [List.lookup, hb]
  | cons p rest ih =>
    by_cases hk : k = p.1
    · simp [List.lookup, hk]
    · have : (k == p.1) = false := by simp [hk]
      simpa [List.lookup, this] using ih

/-- C6: under the counter invariant, `get_or_create_conversation` returns
an existing identifier with the store untouched (so its message list is
unchanged and nothing is allocated), while a missing or unknown identifier
allocates a fresh identifier strictly greater than every stored identifier,
with an empty message list, leaving all existing conversations unchanged
and preserving the invariant. -/
theorem get_or_create_conversation_spec (st : ConvStore) (cid : Option Nat)
    (hinv : ConvStoreInv st) :
    (∀ c, cid = some c → c ∈ sessionIds st →
      get_or_create_conversation st cid = (c, st)) ∧
    ((cid = none ∨ ∃ c, cid = some c ∧ c ∉ sessionIds st) →
      (get_or_create_conversation st cid).1 = st.next_conversation_id ∧
      (∀ k ∈ sessionIds st, k < (get_or_create_conversation st cid).1) ∧
      sessionHistory (get_or_create_conversation st cid).2
        (get_or_create_conversation st cid).1 = some [] ∧
      sessionIds (get_or_create_conversation st cid).2 =
        sessionIds st ++ [(get_or_create_conversation st cid).1] ∧
      (∀ k ∈ sessionIds st,
        sessionHistory (get_or_create_conversation st cid).2 k =
          sessionHistory st k) ∧
      ConvStoreInv (get_or_create_conversation st cid).2) := by
  constructor
  · intro c hc hmem
    subst hc
    simp [get_or_create_conversation, hmem]
  · intro hnew
    have halloc : get_or_create_conversation st cid = allocNewConversation st := by
      rcases hnew with hn | ⟨c, hc, hmem⟩
      · subst hn; rfl
      · subst hc
        simp [get_or_create_conversation, hmem]
    rw [halloc]
    have hfresh : st.next_conversation_id ∉ sessionIds st := by
      intro hmem
      exact absurd (hinv _ hmem) (by omega)
    refine ⟨rfl, fun k hk => hinv k hk, ?_, ?_, ?_, ?_⟩
    · exact lookup_append_fresh _ _ _ hfresh
    · simp [allocNewConversation, sessionIds]
    · intro k hk
      have hne : k ≠ st.next_conversation_id := by
        intro he
        exact absurd (hinv k hk) (by omega)
      exact lookup_append_other _ _ _ _ hne
    · intro k hk
      simp only [allocNewConversation, sessionIds, List.map_append, List.map_cons,
        List.map_nil, List.mem_append, List.mem_cons, List.not_mem_nil,
        or_false] at hk ⊢
      rcases hk with hk | hk
      · exact Nat.lt_succ_of_lt (hinv k hk)
      · omega

/-- Witness for C6: on the concrete store with one conversation and counter
2, requesting the unknown identifier 5 allocates identifier 2. -/
theorem get_or_create_conversation_spec_witness :
    (get_or_create_conversation ⟨[(1, [])], 2⟩ (some 5)).1 = 2 :=
  ((get_or_create_conversation_spec ⟨[(1, [])], 2⟩ (some 5) (by decide)).2
    (Or.inr ⟨5, rfl, by decide⟩)).1

/-! ### Chat-history endpoints

`get_chat_history` and `clear_chat_history` from
`src/ollama_llm_backend.py`.  Both answer with an HTTP 200 payload for
every identifier; neither raises `HTTPException`.
-/

/-- Body of the chat-history read response. -/
structure ChatHistoryPayload where
  conversation_id : Nat
  messages : List ChatMessage
deriving DecidableEq

/-- Body of the chat-history clear response. -/
structure MessagePayload where
  message : String
deriving DecidableEq

/-- Result of a route handler: a 2xx payload or an `HTTPException` with a
status code and detail string. -/
inductive ApiResult (α : Type) where
  | ok (payload : α)
  | httpError (status : Nat) (detail : String)
deriving DecidableEq

/-- `GET /api/ux-agent/chat-history/(conversation_id)`: returns the stored
messages, or an empty list for an unknown identifier — always a 2xx
payload. -/
def get_chat_history (sessions : List (Nat × List ChatMessage)) (cid : Nat) :
    ApiResult ChatHistoryPayload :=
  match sessions.lookup cid with
  | some msgs => .ok ⟨cid, msgs⟩
  | none => .ok ⟨cid, []⟩

/-- `DELETE /api/ux-agent/chat-history/(conversation_id)`: empties the
stored list for a known identifier; answers with a not-found message (still
2xx) for an unknown one.  Returns the response and the updated sessions. -/
def clear_chat_history (sessions : List (Nat × List ChatMessage)) (cid : Nat) :
    ApiResult MessagePayload × List (Nat × List ChatMessage) :=
  if (sessions.lookup cid).isSome then
    (.ok ⟨"Chat history cleared for conversation " ++ toString cid⟩,
     sessions.map fun kv => if kv.1 == cid then (kv.1, []) else kv)
  else
    (.ok ⟨"Conversation " ++ toString cid ++ " not found"⟩, sessions)

/-- C9 counterexample: on an empty session store the identifier 5 is
unknown, yet both the chat-history read and clear endpoints answer with a
2xx payload, not an HTTP 4xx error as claimed. -/
theorem chat_history_unknown_id_not_4xx :
    (([] : List (Nat × List ChatMessage)).lookup 5 = none) ∧
    get_chat_history [] 5 = ApiResult.ok ⟨5, []⟩ ∧
    (clear_chat_history [] 5).1 = ApiResult.ok ⟨"Conversation 5 not found"⟩ := by
  refine ⟨rfl, rfl, ?_⟩
  simp [clear_chat_history, List.lookup]
  rfl

/-- C9 (amended): a request naming an unknown conversation identifier is
answered with a 2xx payload, never a 4xx: the read endpoint returns the
identifier with an empty message list and the clear endpoint returns a
not-found message, leaving the session store unchanged. -/
theorem chat_history_unknown_id_ok (sessions : List (Nat × List ChatMessage))
    (cid : Nat) (h : sessions.lookup cid = none) :
    get_chat_history sessions cid = ApiResult.ok ⟨cid, []⟩ ∧
    clear_chat_history sessions cid =
      (ApiResult.ok ⟨"Conversation " ++ toString cid ++ " not found"⟩, sessions) := by
  constructor
  · simp [get_chat_history, h]
  · simp [clear_chat_history, h]

/-- Witness for C9 (amended) at a concrete store with one conversation and
an unknown identifier. -/
theorem chat_history_unknown_id_ok_witness :
    get_chat_history [(1, [])] 7 = ApiResult.ok ⟨7, []⟩ :=
  (chat_history_unknown_id_ok [(1, [])] 7 (by decide)).1

/-! ### Knowledge lookup (`UXKnowledgeService.search_knowledge`)

From `src/app/services/ux_knowledge.py`.  The knowledge base dict is a
list of documents in load order.  Python `list.sort(key=relevance,
reverse=True)` is a stable descending sort, modelled by a stable insertion
sort on the same key.
-/

/-- One loaded knowledge document: dict key (file stem), title and
extracted text. -/
structure KnowledgeDoc where
  id : String
  title : String
  content : String
deriving DecidableEq

/-- One entry of the `search_knowledge` result list. -/
structure SearchResult where
  document : String
  title : String
  relevance : Nat
  preview : String
deriving DecidableEq

/-- The preview field: the first 200 characters followed by an ellipsis
when the content is longer than 200 characters, else the whole content. -/
def makePreview (content : String) : String :=
  if content.length > 200 then content.take 200 ++ "..." else content

/-- The matching pass of `search_knowledge`: in load order, keep each
document whose lower-cased content contains the lower-cased query, scored
by the raw occurrence count. -/
def matchResults (kb : List KnowledgeDoc) (query : String) : List SearchResult :=
  kb.filterMap fun d =>
    if strContains (strLower d.content) (strLower query) then
      some { document := d.id, title := d.title,
             relevance := strCount (strLower d.content) (strLower query),
             preview := makePreview d.content }
    else none

/-- Insert a result into a descending-relevance list, before the first
entry of lower-or-equal relevance (the placement of a stable descending
sort). -/
def insertByRelevance (r : SearchResult) : List SearchResult → List SearchResult
  | [] => [r]
  | y :: ys =>
    if y.relevance ≤ r.relevance then r :: y :: ys else y :: insertByRelevance r ys

/-- Stable descending sort by relevance, the semantics of the Python
`results.sort(key=relevance, reverse=True)` call. -/
def sortByRelevanceDesc : List SearchResult → List SearchResult
  | [] => []
  | x :: xs => insertByRelevance x (sortByRelevanceDesc xs)

/-- `UXKnowledgeService.search_knowledge(query, max_results)` (the source
defaults `max_results` to 5): match, sort descending by relevance, truncate. -/
def search_knowledge (kb : List KnowledgeDoc) (query : String)
    (maxResults : Nat) : List SearchResult :=
  (sortByRelevanceDesc (matchResults kb query)).take maxResults

theorem mem_insertByRelevance {a x : SearchResult} {l : List SearchResult} :
    a ∈ insertByRelevance x l ↔ a = x ∨ a ∈ l := by
  induction l with
  | nil => simp [insertByRelevance]
  | cons y ys ih =>
    by_cases hc : y.relevance ≤ x.relevance
    · simp [insertByRelevance, hc]
    · simp only [insertByRelevance, if_neg hc, List.mem_cons, ih]
      tauto

theorem mem_sortByRelevanceDesc {a : SearchResult} {l : List SearchResult} :
    a ∈ sortByRelevanceDesc l ↔ a ∈ l := by
  induction l with
  | nil => simp [sortByRelevanceDesc]
  | cons x xs ih =>
    simp [sortByRelevanceDesc, mem_insertByRelevance, ih]

theorem pairwise_insertByRelevance {x : SearchResult} {l : List SearchResult}
    (h : List.Pairwise (fun a b => b.relevance ≤ a.relevance) l) :
    List.Pairwise (fun a b => b.relevance ≤ a.relevance)
      (insertByRelevance x l) := by
  induction l with
  | nil => simp [insertByRelevance]
  | cons y ys ih =>
    rcases List.pairwise_cons.mp h with ⟨hy, hys⟩
    by_cases hc : y.relevance ≤ x.relevance
    · rw [insertByRelevance, if_pos hc]
      refine List.pairwise_cons.mpr ⟨?_, h⟩
      intro b hb
      rcases List.mem_cons.mp hb with hb | hb
      · exact hb ▸ hc
      · exact le_trans (hy b hb) hc
    · rw [insertByRelevance, if_neg hc]
      refine List.pairwise_cons.mpr ⟨?_, ih hys⟩
      intro b hb
      rcases mem_insertByRelevance.mp hb with hb | hb
      · subst hb; omega
      · exact hy b hb

theorem pairwise_sortByRelevanceDesc (l : List SearchResult) :
    List.Pairwise (fun a b => b.relevance ≤ a.relevance)
      (sortByRelevanceDesc l) := by
  induction l with
  | nil => simp [sortByRelevanceDesc]
  | cons x xs ih => exact pairwise_insertByRelevance ih

theorem filter_insertByRelevance (x : SearchResult) (l : List SearchResult)
    (v : Nat) :
    (insertByRelevance x l).filter (fun r => r.relevance == v) =
      if x.relevance == v then x :: l.filter (fun r => r.relevance == v)
      else l.filter (fun r => r.relevance == v) := by
  induction l with
  | nil =>
    cases hb : (x.relevance == v) <;>
      simp [insertByRelevance, List.filter_cons, hb]
  | cons y ys ih =>
    by_cases hc : y.relevance ≤ x.relevance
    · rw [insertByRelevance, if_pos hc]
      cases hb : (x.relevance == v) <;> simp [List.filter_cons, hb]
    · rw [insertByRelevance, if_neg hc]
      by_cases hyv : y.relevance = v
      · have hxb : (x.relevance == v) = false := by
          simp only [beq_eq_false_iff_ne]
          omega
        have hyb : (y.relevance == v) = true := by simp [hyv]
        simp [List.filter_cons, hyb, hxb, ih]
      · have hyb : (y.relevance == v) = false := by simp [hyv]
        simp [List.filter_cons, hyb, ih]

theorem sortByRelevanceDesc_stable (l : List SearchResult) (v : Nat) :
    (sortByRelevanceDesc l).filter (fun r => r.relevance == v) =
      l.filter (fun r => r.relevance == v) := by
  induction l with
  | nil => rfl
  | cons x xs ih =>
    rw [sortByRelevanceDesc, filter_insertByRelevance]
    cases hb : (x.relevance == v) <;> simp [List.filter_cons, hb, ih]

/-- C3: every entry returned by `search_knowledge` comes from a loaded
document whose lower-cased text contains the lower-cased query, scored by
the raw occurrence count; the result list is sorted by non-increasing
relevance, holds at most the requested number of entries, keeps entries of
equal relevance in document load order (stability of the sort pass), and is
empty whenever no document contains the query. -/
theorem search_knowledge_spec (kb : List KnowledgeDoc) (query : String)
    (maxResults : Nat) :
    (∀ r ∈ search_knowledge kb query maxResults, ∃ d ∈ kb,
      strContains (strLower d.content) (strLower query) = true ∧
      r.document = d.id ∧
      r.relevance = strCount (strLower d.content) (strLower query)) ∧
    List.Pairwise (fun a b => b.relevance ≤ a.relevance)
      (search_knowledge kb query maxResults) ∧
    (search_knowledge kb query maxResults).length ≤ maxResults ∧
    (∀ v, (sortByRelevanceDesc (matchResults kb query)).filter
        (fun r => r.relevance == v) =
      (matchResults kb query).filter (fun r => r.relevance == v)) ∧
    ((∀ d ∈ kb, strContains (strLower d.content) (strLower query) = false) →
      search_knowledge kb query maxResults = []) := by
  refine ⟨?_, ?_, ?_, ?_, ?_⟩
  · intro r hr
    have hr2 : r ∈ sortByRelevanceDesc (matchResults kb query) :=
      List.mem_of_mem_take hr
    have hr3 : r ∈ matchResults kb query := mem_sortByRelevanceDesc.mp hr2
    rcases List.mem_filterMap.mp hr3 with ⟨d, hd, hf⟩
    by_cases hc : strContains (strLower d.content) (strLower query) = true
    · refine ⟨d, hd, hc, ?_, ?_⟩
      · rw [if_pos hc] at hf
        cases hf
        rfl
      · rw [if_pos hc] at hf
        cases hf
        rfl
    · rw [if_neg hc] at hf
      cases hf
  · exact List.Pairwise.sublist (List.take_sublist _ _)
      (pairwise_sortByRelevanceDesc _)
  · simp only [search_knowledge]
    exact List.length_take_le maxResults _
  · exact sortByRelevanceDesc_stable _
  · intro hnone
    have hm : matchResults kb query = [] := by
      rw [matchResults, List.filterMap_eq_nil_iff]
      intro d hd
      rw [if_neg (by simp [hnone d hd])]
    simp [search_knowledge, hm, sortByRelevanceDesc]

/-- Witness for C3: a concrete two-document base where only the first
document matches the query, with occurrence count 2. -/
theorem search_knowledge_spec_witness :
    ∃ d ∈ [(⟨"a", "a", "test and test"⟩ : KnowledgeDoc), ⟨"b", "b", "plain"⟩],
      strContains (strLower d.content) (strLower "test") = true ∧
      (⟨"a", "a", 2, "test and test"⟩ : SearchResult).document = d.id ∧
      (⟨"a", "a", 2, "test and test"⟩ : SearchResult).relevance =
        strCount (strLower d.content) (strLower "test") :=
  (search_knowledge_spec
      [⟨"a", "a", "test and test"⟩, ⟨"b", "b", "plain"⟩] "test" 5).1
    ⟨"a", "a", 2, "test and test"⟩ (by decide)

/-! ### Prompt builder (`build_context_prompt`) and completion options

From `src/ollama_llm_backend.py`.  The function takes a conversation
identifier and reads `chat_sessions.get(conversation_id, [])`; the
`history` parameter below is that value.  The fixed generation options of
the `requests.post` payload are modelled with the temperature as a
rational. -/

/-- One history line of the prompt context:
`history` role title-cased, colon, content, newline. -/
def historyLine (m : ChatMessage) : String :=
  pyTitle m.role ++ ": " ++ m.content ++ "\n"

/-- The `Recent conversation history` block: header plus one line for each
of the last 4 stored messages. -/
def historyContextBlock (history : List ChatMessage) : String :=
  "\n\nRecent conversation history:\n" ++
    String.join ((history.drop (history.length - 4)).map historyLine)

/-- The context-aware behavioural instruction block appended after the
history context; abbreviated to its verbatim opening lines (the
prompt-assembly logic does not depend on the tail of this text). -/
def contextInstructions : String :=
  "\n\nImportant instructions:\n- If the user is asking for more details or clarification, provide additional helpful information"

/-- The closing turn marker wrapping the new user message. -/
def userTurnSuffix (message : String) : String :=
  "\n\nUser: " ++ message ++ "\n\nAssistant:"

/-- `build_context_prompt(agent_type, message, conversation_id)`: persona
prompt, then (when history is nonempty) the history block and the
instruction block, then the user turn. -/
def build_context_prompt (agentType message : String)
    (history : List ChatMessage) : String :=
  let base := (agentConfigFor agentType).system_prompt
  let base :=
    if history.isEmpty then base
    else base ++ historyContextBlock history ++ contextInstructions
  base ++ userTurnSuffix message

/-- The options object of the Ollama generate request; the same literal
record is sent on every call. -/
structure GenerateOptions where
  temperature : Rat
  num_predict : Nat
deriving DecidableEq

/-- Options attached to the completion request for a given prompt:
`temperature` 0.7 and `num_predict` 500, independent of the prompt. -/
def ollamaGenerateOptions (_prompt : String) : GenerateOptions :=
  { temperature := 7 / 10, num_predict := 500 }

/-- Prompt shape asserted by the spec sentence for the Response Generator:
persona instructions, then at most the last 4 history turns formatted as
role-colon-content lines, then the new user message — with nothing else in
between. -/
def specCompositePrompt (agentType message : String)
    (history : List ChatMessage) : String :=
  (agentConfigFor agentType).system_prompt ++
    (if history.isEmpty then "" else historyContextBlock history) ++
    userTurnSuffix message

theorem string_append_empty_right (s : String) : s ++ "" = s := by
  cases s
  show String.mk _ = String.mk _
  simp [string_data_append]

theorem string_append_assoc (a b c : String) : a ++ b ++ c = a ++ (b ++ c) := by
  cases a; cases b; cases c
  show String.mk _ = String.mk _
  simp [string_data_append]

/-- C8 counterexample: with one stored history turn, the prompt built by
`build_context_prompt` differs from the spec-asserted concatenation of
persona, history lines and user message — the fixed instruction block is
inserted between the history and the user turn. -/
theorem build_context_prompt_not_spec_shape :
    build_context_prompt "triage" "hello" [⟨"user", "hi", "t0"⟩] ≠
      specCompositePrompt "triage" "hello" [⟨"user", "hi", "t0"⟩] := by
  decide

/-- C8 (amended): the submitted prompt equals the persona instructions for
the agent, followed — when history is nonempty — by the last-4-turns
history block and a fixed context-instruction block, followed by the new
user message turn; the history block covers at most the last 4 turns, and
the completion call always carries the same fixed temperature (0.7) and
output-length cap (500 tokens). -/
theorem build_context_prompt_structure (agentType message : String)
    (history : List ChatMessage) :
    build_context_prompt agentType message history =
      (agentConfigFor agentType).system_prompt ++
        (if history.isEmpty then ""
         else historyContextBlock history ++ contextInstructions) ++
        userTurnSuffix message ∧
    historyContextBlock history =
      historyContextBlock (history.drop (history.length - 4)) ∧
    ∀ p q, ollamaGenerateOptions p = ollamaGenerateOptions q := by
  refine ⟨?_, ?_, fun _ _ => rfl⟩
  · by_cases h : history.isEmpty
    · simp only [build_context_prompt, specCompositePrompt, h, if_true,
        string_append_empty_right]
    · simp only [build_context_prompt, h, if_false, Bool.false_eq_true,
        string_append_assoc]
  · unfold historyContextBlock
    congr 1
    congr 1
    have hlen : (history.drop (history.length - 4)).length ≤ 4 := by
      simp [List.length_drop]
      omega
    have h0 : (history.drop (history.length - 4)).length -
        4 = 0 := by omega
    rw [h0, List.drop_zero]

/-! ### Payment flow (`create_payment_intent`, `stripe_webhook`)

From `src/app/api/routes/payment.py`, with the relational tables as record
lists, the Stripe API abstracted (the created intent identifier is a
parameter) and the webhook modelled after successful signature
verification.  `query(...).filter(...).first()` is first-match lookup;
mutating the returned ORM row is an in-place update of that first match.
-/

/-- A row of the `payments` table (server-generated id and timestamp
columns omitted; the amount is stored in dollars as `amount_cents / 100`). -/
structure PaymentRow where
  user_id : Nat
  stripe_payment_intent_id : String
  amount : Rat
  currency : String
  status : String
  subscription_id : Option String
deriving DecidableEq

/-- A row of the `users` table (credential and timestamp columns omitted;
the payment flow reads `id` and writes `is_premium` and
`subscription_id`). -/
structure UserRow where
  id : Nat
  email : String
  username : String
  is_premium : Bool
  subscription_id : Option String
deriving DecidableEq

/-- The database state seen by the payment routes. -/
structure PaymentDB where
  payments : List PaymentRow
  users : List UserRow
deriving DecidableEq

/-- First payment row carrying the given Stripe intent identifier. -/
def findPayment (ps : List PaymentRow) (intentId : String) : Option PaymentRow :=
  ps.find? fun p => p.stripe_payment_intent_id == intentId

/-- First user row with the given primary key. -/
def findUser (us : List UserRow) (uid : Nat) : Option UserRow :=
  us.find? fun u => u.id == uid

/-- Update the first payment row with the given intent identifier. -/
def updateFirstPayment (intentId : String) (f : PaymentRow → PaymentRow) :
    List PaymentRow → List PaymentRow
  | [] => []
  | p :: rest =>
    if p.stripe_payment_intent_id == intentId then f p :: rest
    else p :: updateFirstPayment intentId f rest

/-- Update the first user row with the given primary key. -/
def updateFirstUser (uid : Nat) (f : UserRow → UserRow) :
    List UserRow → List UserRow
  | [] => []
  | u :: rest =>
    if u.id == uid then f u :: rest else u :: updateFirstUser uid f rest

/-- `create_payment_intent` on the happy path: the Stripe intent was
created under `intentId`; a payment row is inserted with the cent amount
divided by 100 and status `pending`. -/
def create_payment_intent (db : PaymentDB) (userId : Nat) (intentId : String)
    (amountCents : Nat) (currency : String) : PaymentDB :=
  { db with payments := db.payments ++
      [{ user_id := userId, stripe_payment_intent_id := intentId,
         amount := (amountCents : Rat) / 100, currency := currency,
         status := "pending", subscription_id := none }] }

/-- Webhook response body (the literal success dictionary). -/
structure WebhookResponse where
  status : String
deriving DecidableEq

/-- `stripe_webhook` after successful signature verification, keyed by the
event type and the intent identifier of the event payload: the succeeded
event marks the payment succeeded and promotes the linked user; the failed
event marks the payment failed; everything else (including an unmatched
intent identifier) changes nothing.  Always answers with the success
body. -/
def stripe_webhook (db : PaymentDB) (eventType intentId : String) :
    PaymentDB × WebhookResponse :=
  if eventType == "payment_intent.succeeded" then
    match findPayment db.payments intentId with
    | some p =>
      let db1 := { db with payments :=
        (updateFirstPayment intentId (fun q => { q with status := "succeeded" })
          db.payments) }
      let db2 :=
        match findUser db.users p.user_id with
        | some _ => { db1 with users :=
            (updateFirstUser p.user_id
              (fun u => { u with is_premium := true,
                                 subscription_id := some intentId })
              db1.users) }
        | none => db1
      (db2, ⟨"success"⟩)
    | none => (db, ⟨"success"⟩)
  else if eventType == "payment_intent.payment_failed" then
    match findPayment db.payments intentId with
    | some _ =>
      ({ db with payments :=
          (updateFirstPayment intentId (fun q => { q with status := "failed" })
            db.payments) }, ⟨"success"⟩)
    | none => (db, ⟨"success"⟩)
  else (db, ⟨"success"⟩)

theorem find_append_of_none {α : Type} (p : α → Bool) (l1 l2 : List α)
    (h : l1.find? p = none) : (l1 ++ l2).find? p = l2.find? p := by
  induction l1 with
  | nil => simp
  | cons a as ih =>
    cases hpa : p a with
    | true => simp [List.find?_cons, hpa] at h
    | false =>
      simp only [List.find?_cons, hpa] at h
      simpa [List.find?_cons, hpa] using ih h

theorem updateFirstPayment_skip (intentId : String) (f : PaymentRow → PaymentRow)
    (l rest : List PaymentRow)
    (h : ∀ q ∈ l, (q.stripe_payment_intent_id == intentId) = false) :
    updateFirstPayment intentId f (l ++ rest) =
      l ++ updateFirstPayment intentId f rest := by
  induction l with
  | nil => simp
  | cons q qs ih =>
    have hq := h q (by simp)
    simp only [List.cons_append, updateFirstPayment, hq, if_false,
      Bool.false_eq_true, List.cons.injEq, true_and]
    exact ih fun r hr => h r (by simp [hr])

theorem findUser_updateFirstUser (uid : Nat) (f : UserRow → UserRow)
    (us : List UserRow) (hf : ∀ u, (f u).id = u.id) :
    findUser (updateFirstUser uid f us) uid = (findUser us uid).map f := by
  induction us with
  | nil => simp [findUser, updateFirstUser]
  | cons u rest ih =>
    cases hu : (u.id == uid) with
    | true =>
      have hfu : ((f u).id == uid) = true := by
        rw [hf u]; exact hu
      simp [findUser, updateFirstUser, hu, hfu, List.find?_cons]
    | false =>
      simpa [findUser, updateFirstUser, hu, List.find?_cons] using ih

/-- C7: a payment created by `create_payment_intent` (status pending, intent
identifier fresh) reacts to a `payment_intent.succeeded` webhook for the
same intent identifier by moving to status succeeded with the linked user
promoted to premium, and to a `payment_intent.payment_failed` webhook by
moving to status failed with the whole users table — hence every premium
flag — untouched. -/
theorem payment_webhook_round_trip (db : PaymentDB) (uid : Nat)
    (intentId : String) (amountCents : Nat) (currency : String)
    (hfresh : findPayment db.payments intentId = none)
    (huser : (findUser db.users uid).isSome = true) :
    ((findPayment (stripe_webhook
        (create_payment_intent db uid intentId amountCents currency)
        "payment_intent.succeeded" intentId).1.payments intentId).map
      (fun p => p.status) = some "succeeded") ∧
    ((findUser (stripe_webhook
        (create_payment_intent db uid intentId amountCents currency)
        "payment_intent.succeeded" intentId).1.users uid).map
      (fun u => u.is_premium) = some true) ∧
    ((findPayment (stripe_webhook
        (create_payment_intent db uid intentId amountCents currency)
        "payment_intent.payment_failed" intentId).1.payments intentId).map
      (fun p => p.status) = some "failed") ∧
    (stripe_webhook (create_payment_intent db uid intentId amountCents currency)
        "payment_intent.payment_failed" intentId).1.users = db.users := by
  set newP : PaymentRow :=
    { user_id := uid, stripe_payment_intent_id := intentId,
      amount := (amountCents : Rat) / 100, currency := currency,
      status := "pending", subscription_id := none } with hnewP
  have hmatch : (newP.stripe_payment_intent_id == intentId) = true := by
    simp [hnewP]
  have hnomatch : ∀ q ∈ db.payments,
      (q.stripe_payment_intent_id == intentId) = false := by
    intro q hq
    have := List.find?_eq_none.mp hfresh q hq
    simpa using this
  have hfind1 : findPayment (db.payments ++ [newP]) intentId = some newP := by
    unfold findPayment at hfresh ⊢
    rw [find_append_of_none _ _ _ hfresh]
    simp [List.find?_cons, hmatch]
  obtain ⟨u0, hu0⟩ := Option.isSome_iff_exists.mp huser
  have hupd : ∀ f : PaymentRow → PaymentRow,
      updateFirstPayment intentId f (db.payments ++ [newP]) =
        db.payments ++ [f newP] := by
    intro f
    rw [updateFirstPayment_skip _ _ _ _ hnomatch]
    simp [updateFirstPayment, hmatch]
  have hfindUpd : ∀ p2 : PaymentRow,
      p2.stripe_payment_intent_id = intentId →
      findPayment (db.payments ++ [p2]) intentId = some p2 := by
    intro p2 hfid
    unfold findPayment at hfresh ⊢
    rw [find_append_of_none _ _ _ hfresh]
    simp [List.find?_cons, hfid]
  constructor
  · show ((findPayment (stripe_webhook
        { db with payments := db.payments ++ [newP] }
        "payment_intent.succeeded" intentId).1.payments intentId).map
      (fun p => p.status) = some "succeeded")
    simp only [stripe_webhook, beq_self_eq_true, if_true, hfind1]
    rw [hupd]
    cases hfu : findUser db.users newP.user_id with
    | none =>
      simp only []
      rw [hfindUpd _ rfl]
      rfl
    | some u =>
      simp only []
      rw [hfindUpd _ rfl]
      rfl
  constructor
  · show ((findUser (stripe_webhook
        { db with payments := db.payments ++ [newP] }
        "payment_intent.succeeded" intentId).1.users uid).map
      (fun u => u.is_premium) = some true)
    simp only [stripe_webhook, beq_self_eq_true, if_true, hfind1]
    have hfu : findUser db.users newP.user_id = some u0 := hu0
    simp only [hfu]
    rw [findUser_updateFirstUser uid
      (fun u => { u with is_premium := true, subscription_id := some intentId })
      db.users (fun u => rfl), hu0]
    rfl
  constructor
  · show ((findPayment (stripe_webhook
        { db with payments := db.payments ++ [newP] }
        "payment_intent.payment_failed" intentId).1.payments intentId).map
      (fun p => p.status) = some "failed")
    have hne : (("payment_intent.payment_failed" : String) ==
        "payment_intent.succeeded") = false := by decide
    rw [stripe_webhook]
    simp only [hne, Bool.false_eq_true, if_false, beq_self_eq_true, if_true, hfind1]
    rw [hupd]
    rw [hfindUpd _ rfl]
    rfl
  · show (stripe_webhook { db with payments := db.payments ++ [newP] }
        "payment_intent.payment_failed" intentId).1.users = db.users
    have hne : (("payment_intent.payment_failed" : String) ==
        "payment_intent.succeeded") = false := by decide
    rw [stripe_webhook]
    simp only [hne, Bool.false_eq_true, if_false, beq_self_eq_true, if_true, hfind1]

/-- Witness for C7 at a concrete one-user database and a fresh intent
identifier. -/
theorem payment_webhook_round_trip_witness :
    ((findUser (stripe_webhook
        (create_payment_intent ⟨[], [⟨1, "a@b.com", "alice", false, none⟩]⟩
          1 "pi_1" 2999 "usd")
        "payment_intent.succeeded" "pi_1").1.users 1).map
      (fun u => u.is_premium) = some true) :=
  (payment_webhook_round_trip ⟨[], [⟨1, "a@b.com", "alice", false, none⟩]⟩
    1 "pi_1" 2999 "usd" (by decide) (by decide)).2.1

/-- C10: a succeeded or failed payment webhook whose intent identifier
matches no stored payment row leaves the whole database (payments and
users, hence every premium flag) unchanged and still answers with the
success body. -/
theorem webhook_unknown_intent_noop (db : PaymentDB) (eventType intentId : String)
    (hnone : findPayment db.payments intentId = none)
    (het : eventType = "payment_intent.succeeded" ∨
           eventType = "payment_intent.payment_failed") :
    stripe_webhook db eventType intentId = (db, ⟨"success"⟩) := by
  rcases het with het | het <;> subst het <;>
    simp [stripe_webhook, hnone]

/-- Witness for C10 on a concrete database whose single payment does not
carry the webhook intent identifier. -/
theorem webhook_unknown_intent_noop_witness :
    stripe_webhook
        ⟨[⟨1, "pi_1", 29, "usd", "pending", none⟩],
         [⟨1, "a@b.com", "alice", false, none⟩]⟩
        "payment_intent.succeeded" "pi_other" =
      (⟨[⟨1, "pi_1", 29, "usd", "pending", none⟩],
        [⟨1, "a@b.com", "alice", false, none⟩]⟩, ⟨"success"⟩) :=
  webhook_unknown_intent_noop _ _ _ (by decide) (Or.inl rfl)

end UXAgentSpec
